import Mathlib

/-!
Verification of the Freud moderation bot against its specification.

Shallow embedding of the components the claims are about:
  * the cooperative task scheduler (src/bot/utils/scheduling.py),
  * the moderation log with its ignore registry and delete de-duplication
    (src/bot/cogs/modlog/modlog.py),
  * the anti-spam rule engine and its DeletionContext
    (src/bot/cogs/antispam/antispam.py),
  * the content filters (src/bot/cogs/filtering/filtering.py).

Stateful handlers are modelled as explicit state-passing functions that also
return the list of externally visible effects they perform; fallible Python
steps (attribute lookups on names the object does not define, unpacking,
undefined names) are modelled with `Except`/error fields carrying `PyError`.
Definitions that correspond to code missing from the truncated sources carry a
doc comment starting with `Modelled from the spec:`.
-/

/-- The Python exception kinds raised by the modelled code paths. -/
inductive PyError where
  | attributeError
  | nameError
  | valueError
  | keyError
  | typeError
deriving DecidableEq, Repr

/-! ## Task scheduler (src/bot/utils/scheduling.py) -/

/-- State of a `Scheduler` instance (scheduling.py, `__init__`, line 18): the
`scheduled_task` dict mapping a task id to the running task's handle, modelled
as an association list in insertion order with abstract numeric handles. -/
structure SchedulerState where
  scheduled_task : List (String × Nat)
deriving DecidableEq, Repr

/-- `Scheduler.schedule_task` (scheduling.py lines 28-35). Returns the updated
state together with the list of task handles started by the call (each
`create_task` invocation contributes one element). If `task_id` is already a
key of the dict, the method returns immediately; otherwise it starts one task
and records its handle under `task_id`. -/
def schedule_task (st : SchedulerState) (task_id : String) (handle : Nat) :
    SchedulerState × List Nat :=
  if st.scheduled_task.any (fun p => p.1 == task_id) then (st, [])
  else (⟨st.scheduled_task ++ [(task_id, handle)]⟩, [handle])

/-! ## Moderation log (src/bot/cogs/modlog/modlog.py) -/

/-- The `Event` enum (src/bot/constants.py lines 370-387). -/
inductive Event where
  | guild_channel_create
  | guild_channel_delete
  | guild_channel_update
  | guild_role_create
  | guild_role_delete
  | guild_role_update
  | guild_update
  | member_join
  | member_remove
  | member_ban
  | member_unban
  | member_update
  | message_delete
  | message_edit
deriving DecidableEq, Repr

/-- State of the `ModLog` cog (modlog.py, `__init__`, lines 30-35): the
`_ignored` dict from event kind to a list of ids, and the two bounded lists of
recently self-observed message ids. -/
structure ModLogState where
  ignored : Event → List Nat
  cachedDeletes : List Nat
  cachedEdits : List Nat

/-- `ModLog.__init__` (modlog.py lines 30-35): every event kind starts with an
empty ignore list; both caches start empty. -/
def ModLog.init : ModLogState := ⟨fun _ => [], [], []⟩

/-- The loop body of `ModLog.ignore` applied to one event kind's list
(modlog.py lines 39-41): append each item that is not already present. -/
def ignore_items (l : List Nat) (items : List Nat) : List Nat :=
  items.foldl (fun acc item => if item ∈ acc then acc else acc ++ [item]) l

/-- `ModLog.ignore` (modlog.py lines 37-41). -/
def ModLog.ignore (st : ModLogState) (event : Event) (items : List Nat) :
    ModLogState :=
  { st with
    ignored := fun e =>
      if e = event then ignore_items (st.ignored event) items else st.ignored e }

/-- Python's `list.remove`: drop the first occurrence of `x`. The callers in
modlog.py only invoke it after a membership check, so the not-found ValueError
branch is unreachable there. -/
def remove_first (l : List Nat) (x : Nat) : List Nat :=
  match l with
  | [] => []
  | y :: ys => if y = x then ys else y :: remove_first ys x

/-- `ModLog.send_log_message` (modlog.py lines 43-88). Its first body line
(line 59, `discord.Embed(description=text)`) reads the name `text`, which is
neither among the parameters (lines 44-56) nor defined anywhere in scope, so
every call raises NameError before anything is delivered to the audit channel.
The parameters mirror the positional arguments of the delete-handler call
sites (which pass the rendered body text into the `thumbnail` slot, as the
source does once the `text` parameter is gone from the signature). -/
def ModLog.send_log_message (icon_url : String) (colour : Nat) (title : String)
    (thumbnail : Option String) : Except PyError String :=
  Except.error PyError.nameError

/-- Guild-level configuration consumed by the modlog handlers
(`GuildConstant.id` and `GuildConstant.ignored` in modlog.py). -/
structure GuildCfg where
  id : Nat
  ignoredChannels : List Nat
deriving DecidableEq, Repr

/-- The fields of a cached `discord.Message` that
`ModLog.on_message_delete` reads. -/
structure CachedMessage where
  id : Nat
  channelId : Nat
  channelName : String
  channelCategory : Option String
  guildId : Nat
  authorId : Nat
  authorName : String
  authorDiscriminator : Nat
  authorBot : Bool
  attachments : Nat
  cleanContent : String
deriving DecidableEq, Repr

/-- The fields of a `discord.RawMessageDeleteEvent` that
`ModLog.on_raw_message_delete` reads. -/
structure RawDeleteEvent where
  messageId : Nat
  channelId : Nat
  guildId : Nat
deriving DecidableEq, Repr

/-- The channel metadata the raw delete handler fetches with
`self.bot.get_channel` (modlog.py line 193). -/
structure RawChannel where
  name : String
  category : Option String
deriving DecidableEq, Repr

/-- Result of running a modlog event handler: the state afterwards, the body
texts of the audit entries actually delivered to the audit channel, and the
Python exception the handler raised, if any (state mutations made before the
raise are kept, as in Python). -/
structure HandlerOut where
  state : ModLogState
  sent : List String
  err : Option PyError

/-- The response text built by `ModLog.on_message_delete`
(modlog.py lines 147-168); markdown backtick decoration is elided. -/
def delete_response (msg : CachedMessage) : String :=
  let response :=
    match msg.channelCategory with
    | some cat =>
        "**Author:** " ++ msg.authorName ++ "#" ++
          toString msg.authorDiscriminator ++ " (" ++ toString msg.authorId ++
          ")\n" ++
        "**Channel:** " ++ cat ++ "/#" ++ msg.channelName ++ " (" ++
          toString msg.channelId ++ ")\n" ++
        "**Message ID:** " ++ toString msg.id ++ "\n\n"
    | none =>
        "**Author:** " ++ msg.authorName ++ "#" ++
          toString msg.authorDiscriminator ++ " (" ++ toString msg.authorId ++
          ")\n" ++
        "**Channel:** #" ++ msg.channelName ++ " (" ++
          toString msg.channelId ++ ")\n" ++
        "**Message ID:** " ++ toString msg.id ++ "\n\n"
  let response :=
    if msg.attachments ≠ 0 then
      "**Attachments:** " ++ toString msg.attachments ++ "\n" ++ response
    else response
  response ++ msg.cleanContent

/-- `ModLog.on_message_delete` (modlog.py lines 129-175), the cached delivery
path: guild/ignored-channel gating, recording of the message id in the
`_cached_deletes` seen-list (line 138, before any other check), one-shot
consumption of the ignore registry (lines 140-142), the bot-author early
return (lines 144-145), and finally the audit call (lines 170-175), which
fails inside `send_log_message` (see there). -/
def ModLog.on_message_delete (cfg : GuildCfg) (st : ModLogState)
    (msg : CachedMessage) : HandlerOut :=
  if msg.guildId ≠ cfg.id ∨ msg.channelId ∈ cfg.ignoredChannels then
    ⟨st, [], none⟩
  else
    let st1 : ModLogState :=
      { st with cachedDeletes := st.cachedDeletes ++ [msg.id] }
    if msg.id ∈ st1.ignored Event.message_delete then
      ⟨{ st1 with
          ignored := fun e =>
            if e = Event.message_delete then
              remove_first (st1.ignored Event.message_delete) msg.id
            else st1.ignored e }, [], none⟩
    else if msg.authorBot then ⟨st1, [], none⟩
    else
      let response := delete_response msg
      match ModLog.send_log_message "icon_message_delete" 0 "Message deleted"
          (some response) with
      | Except.ok body => ⟨st1, [body], none⟩
      | Except.error e => ⟨st1, [], some e⟩

/-- The degraded response text built by `ModLog.on_raw_message_delete`
(modlog.py lines 195-208); markdown backtick decoration is elided. -/
def raw_delete_response (channelId : Nat) (ch : RawChannel)
    (messageId : Nat) : String :=
  match ch.category with
  | some cat =>
      "**Channel:** " ++ cat ++ "/#" ++ ch.name ++ " (" ++
        toString channelId ++ ")\n" ++
      "**Message ID:** " ++ toString messageId ++ "\n\n" ++
      "This message was not cached, so the message content cannot be displayed."
  | none =>
      "**Channel:** #" ++ ch.name ++ " (" ++ toString channelId ++ ")\n" ++
      "**Message ID:** " ++ toString messageId ++ "\n\n" ++
      "This message was not cached, so the message content cannot be displayed."

/-- `ModLog.on_raw_message_delete` (modlog.py lines 177-215), the raw delivery
path: guild/ignored-channel gating, then `await asyncio.sleep(1)` (line 183, a
suspension point: in the scenarios below the cached handler, when delivered,
has already run by the time execution resumes), then the seen-list check
(lines 185-187), the ignore-registry check (lines 189-191), and the degraded
audit call (lines 210-215), which fails inside `send_log_message`. -/
def ModLog.on_raw_message_delete (cfg : GuildCfg)
    (lookupChannel : Nat → RawChannel) (st : ModLogState)
    (ev : RawDeleteEvent) : HandlerOut :=
  if ev.guildId ≠ cfg.id ∨ ev.channelId ∈ cfg.ignoredChannels then
    ⟨st, [], none⟩
  else
    if ev.messageId ∈ st.cachedDeletes then
      ⟨{ st with cachedDeletes := remove_first st.cachedDeletes ev.messageId },
        [], none⟩
    else if ev.messageId ∈ st.ignored Event.message_delete then
      ⟨{ st with
          ignored := fun e =>
            if e = Event.message_delete then
              remove_first (st.ignored Event.message_delete) ev.messageId
            else st.ignored e }, [], none⟩
    else
      let response :=
        raw_delete_response ev.channelId (lookupChannel ev.channelId)
          ev.messageId
      match ModLog.send_log_message "icon_message_delete" 0 "Message deleted"
          (some response) with
      | Except.ok body => ⟨st, [body], none⟩
      | Except.error e => ⟨st, [], some e⟩

/-- Fold a sequence of `ignore` calls over a modlog state. -/
def apply_ignores (st : ModLogState) (calls : List (Event × List Nat)) :
    ModLogState :=
  calls.foldl (fun s c => ModLog.ignore s c.1 c.2) st

/-! ## Anti-spam rule engine (src/bot/cogs/antispam/antispam.py) -/

/-- The fields of a `discord.Member` that the anti-spam code reads. -/
structure SpamMember where
  id : Nat
  display_name : String
  discriminator : Nat
deriving DecidableEq, Repr

/-- The fields of a `discord.Message` that the anti-spam code reads. -/
structure SpamMessage where
  id : Nat
  author_id : Nat
  author_bot : Bool
  channel_id : Nat
  created_at : Nat
  clean_content : String
deriving DecidableEq, Repr

/-- `DeletionContext` (antispam.py lines 36-43). The member map's values have
type `List SpamMember` because `DeletionContext.add` (line 51) stores the
whole `members` iterable under each new member id, not the individual member.
The `rules` set and both maps are modelled as insertion-ordered lists. -/
structure DeletionContext where
  channel : Nat
  members : List (Nat × List SpamMember)
  rules : List String
  messages : List (Nat × SpamMessage)
deriving DecidableEq, Repr

/-- `DeletionContext.add` (antispam.py lines 45-55): adds the rule name to the
`rules` set; for each member whose id is not yet a key, line 51
(`self.members[member.id] = members`) binds the id to the whole `members`
iterable; for each message whose id is not yet a key, line 55 binds the id to
that message (first-seen wins). -/
def DeletionContext.add (ctx : DeletionContext) (rule_name : String)
    (members : List SpamMember) (messages : List SpamMessage) :
    DeletionContext :=
  let rules :=
    if rule_name ∈ ctx.rules then ctx.rules else ctx.rules ++ [rule_name]
  let memberMap := members.foldl
    (fun acc member =>
      if acc.any (fun p => p.1 == member.id) then acc
      else acc ++ [(member.id, members)])
    ctx.members
  let messageMap := messages.foldl
    (fun acc message =>
      if acc.any (fun p => p.1 == message.id) then acc
      else acc ++ [(message.id, message)])
    ctx.messages
  { ctx with rules := rules, members := memberMap, messages := messageMap }

/-- The composed alert of `DeletionContext.upload_messages`: body text and the
author whose avatar becomes the thumbnail. -/
structure SpamAlert where
  text : String
  thumbnailAuthor : Nat
deriving DecidableEq, Repr

/-- One element of the `triggered_by_users` join of
`DeletionContext.upload_messages` (antispam.py line 59): for each value `m` of
the member map it renders `m.display_name`, `m.discriminator` and `m.id`. The
values stored by `add` (line 51) are member *lists*, and a Python list has
none of these attributes, so rendering any entry raises AttributeError. -/
def render_triggered_by_entry (v : List SpamMember) : Except PyError String :=
  Except.error PyError.attributeError

/-- `DeletionContext.upload_messages` (antispam.py lines 57-86): renders the
triggering users (line 59), composes the alert preamble, performs the
single-target unpacking `[message] = self.messages.values()` (line 68, a
ValueError unless the message map holds exactly one entry), truncates the
content to the `2040` budget with a trailing ellipsis (lines 70-75), takes the
last message for the thumbnail (line 77) and sends the alert. Markdown
backtick decoration is elided from the rendered strings. -/
def DeletionContext.upload_messages (ctx : DeletionContext) :
    Except PyError SpamAlert := do
  let entries ← ctx.members.mapM (fun p => render_triggered_by_entry p.2)
  let triggered_by_users := String.intercalate ", " entries
  let mod_alert_message :=
    "**Triggered by:** " ++ triggered_by_users ++ "\n" ++
    "**Channel:** <#" ++ toString ctx.channel ++ ">\n" ++
    "**Rules:** " ++ String.intercalate ", " ctx.rules ++ "\n"
  let mod_alert_message := mod_alert_message ++ "Message:\n"
  let message ← (match ctx.messages with
    | [p] => Except.ok p.2
    | _ => Except.error PyError.valueError)
  let content := message.clean_content
  let remaining_chars : Int := 2040 - (mod_alert_message.length : Int)
  let content :=
    if (content.length : Int) > remaining_chars then
      content.take remaining_chars.toNat ++ "..."
    else content
  let mod_alert_message := mod_alert_message ++ content
  let last_message ← (match ctx.messages.getLast? with
    | some p => Except.ok p.2
    | none => Except.error PyError.valueError)
  Except.ok ⟨mod_alert_message, last_message.author_id⟩

/-- `RuleResult`: the optional triple returned by a rule evaluation function
(reason, offending members, offending messages). -/
structure RuleResult where
  reason : String
  members : List SpamMember
  messages : List SpamMessage

/-- Modelled from the spec: the `bot.rules` module imported at antispam.py
line 10 is not under src/, so rule evaluation functions are abstract, with the
spec's signature `(triggeringMessage, candidateMessages, ruleConfig) ->
optional(reason, offendingMembers, offendingMessages)`; the per-rule config is
carried by the closure together with the rule's `interval`. -/
structure RuleCfg where
  name : String
  interval : Nat
  eval : SpamMessage → List SpamMessage → Option RuleResult

/-- The externally visible effects of the rule-matching branch of
`AntiSpam.on_message` (antispam.py lines 163-186). -/
inductive SpamEffect where
  | scheduledDrainTask (channelId : Nat)
  | scheduledPunishment (memberId : Nat) (reason : String)
  | deletedMessages (ids : List Nat)
deriving DecidableEq, Repr

/-- The per-instance state of the `AntiSpam` cog that the rule loop touches:
the `message_deletion_queue` dict from channel id to its live
`DeletionContext` (antispam.py line 98). -/
structure AntiSpamState where
  message_deletion_queue : List (Nat × DeletionContext)
deriving DecidableEq, Repr

/-- Result of running the rule-evaluation loop: the exception raised (if any),
the state afterwards, and the effects performed (mutations made before a raise
are kept, as in Python). -/
structure SpamRun where
  err : Option PyError
  state : AntiSpamState
  effects : List SpamEffect
deriving DecidableEq, Repr

/-- The attribute names bound on the `AntiSpam` instance by `__init__`
(antispam.py lines 92-100). -/
def antiSpamAttrs : List String :=
  ["bot", "validation_errors", "muted_role", "expiration_date_converter",
   "message_deletion_queue", "queue_consumption_tasks"]

/-- The attribute read `self.message_deletiong_queue` at antispam.py line 167.
`__init__` binds `message_deletion_queue` (line 98); the name read here is not
an attribute of the object, so Python raises AttributeError. -/
def read_deletion_queue_line_167 (st : AntiSpamState) :
    Except PyError (List (Nat × DeletionContext)) :=
  if "message_deletiong_queue" ∈ antiSpamAttrs then
    Except.ok st.message_deletion_queue
  else Except.error PyError.attributeError

/-- Update the context stored under a channel key. -/
def assoc_update (l : List (Nat × DeletionContext)) (k : Nat)
    (f : DeletionContext → DeletionContext) : List (Nat × DeletionContext) :=
  l.map (fun p => if p.1 == k then (p.1, f p.2) else p)

/-- The rule-evaluation loop of `AntiSpam.on_message` (antispam.py lines
152-186), entered after the gating checks and the shared history fetch. For
each configured rule in declared order: narrow the candidate pool to the
rule's interval (lines 157-160), invoke the rule function (line 161), and on a
match run the violation branch (lines 163-186): read the deletion queue via
the misspelt attribute (line 167, which raises), create the channel's context
and schedule the drain task if absent (lines 168-172), merge via
`DeletionContext.add` (lines 174-178), schedule one punishment task per
offending member (lines 180-183), delete the offending messages (line 185,
`maybe_delete_messages` — absent from the truncated file, modelled from the
spec as a batched deletion of the offending messages) and stop (line 186). -/
def AntiSpam.rule_loop (rules : List RuleCfg) (message : SpamMessage)
    (relevant_messages : List SpamMessage) (now : Nat) (st : AntiSpamState) :
    SpamRun :=
  match rules with
  | [] => ⟨none, st, []⟩
  | r :: rest =>
    let messages_for_rule :=
      relevant_messages.filter (fun m => now - r.interval < m.created_at)
    match r.eval message messages_for_rule with
    | none => AntiSpam.rule_loop rest message relevant_messages now st
    | some result =>
      let full_reason := r.name ++ " rule: " ++ result.reason
      match read_deletion_queue_line_167 st with
      | Except.error e => ⟨some e, st, []⟩
      | Except.ok queue =>
        -- Continuation of the source text (lines 168-186), reachable only if
        -- the attribute read had succeeded.
        let chan := message.channel_id
        let createNew := !(queue.any (fun p => p.1 == chan))
        let st :=
          if createNew then
            AntiSpamState.mk
              (st.message_deletion_queue ++ [(chan, ⟨chan, [], [], []⟩)])
          else st
        let creationEffects :=
          if createNew then [SpamEffect.scheduledDrainTask chan] else []
        let st := AntiSpamState.mk
          (assoc_update st.message_deletion_queue chan
            (fun ctx => ctx.add r.name result.members result.messages))
        let punishments := result.members.map
          (fun m => SpamEffect.scheduledPunishment m.id full_reason)
        ⟨none, st,
          creationEffects ++ punishments ++
            [SpamEffect.deletedMessages (result.messages.map (fun m => m.id))]⟩

/-! ## Content filters (src/bot/cogs/filtering/filtering.py) -/

/-- The characters matched by the `\s` class of Python's `re` on str
(space, tab, newline, carriage return, vertical tab, form feed). -/
def py_whitespace : List Char := [' ', '\t', '\n', '\r', '\x0b', '\x0c']

/-- ASCII lowering, as performed by `re.IGNORECASE` on the patterns in play. -/
def lower_char (c : Char) : Char :=
  if 65 ≤ c.toNat ∧ c.toNat ≤ 90 then Char.ofNat (c.toNat + 32) else c

/-- Case-insensitive character comparison. -/
def chars_ieq (a b : Char) : Bool := lower_char a == lower_char b

/-- Case-insensitive literal match of `pat` against the front of `text`. -/
def lit_at : List Char → List Char → Bool
  | [], _ => true
  | _ :: _, [] => false
  | p :: ps, c :: cs => chars_ieq c p && lit_at ps cs

/-- `re.search` with a literal pattern: does `pat` occur (case-insensitively)
at some position of `text`? The configured watchlist expressions are modelled
as literal tokens, for which `re.search` under `re.IGNORECASE` is exactly
case-insensitive substring search. -/
def token_search (pat : List Char) : List Char → Bool
  | [] => lit_at pat []
  | c :: cs => lit_at pat (c :: cs) || token_search pat cs

/-- Length of the maximal run of non-whitespace characters at the front. -/
def non_ws_run : List Char → Nat
  | [] => 0
  | c :: cs => if py_whitespace.contains c then 0 else non_ws_run cs + 1

/-- Length of the `URL_RE` match anchored at the front of `suffix`, if any:
the literal prefix `http://` or `https://` (case-insensitively) followed by a
maximal non-empty run of non-whitespace characters — the regex
`https?://[^\s]+` of filtering.py line 29. -/
def url_match_len (suffix : List Char) : Option Nat :=
  if lit_at ("https://".toList) suffix then
    (if non_ws_run (suffix.drop 8) = 0 then none
     else some (8 + non_ws_run (suffix.drop 8)))
  else if lit_at ("http://".toList) suffix then
    (if non_ws_run (suffix.drop 7) = 0 then none
     else some (7 + non_ws_run (suffix.drop 7)))
  else none

/-- `URL_RE.search(text)`: does the URL regex match anywhere in `text`? -/
def url_search : List Char → Bool
  | [] => false
  | c :: cs => (url_match_len (c :: cs)).isSome || url_search cs

/-- `Filtering._has_watchlist_tokens` (filtering.py lines 230-241): scan the
token patterns in declared order; on a pattern match return True only when
`URL_RE` finds no match anywhere in the whole `text` (line 240 searches
`text`, not the matched span); otherwise fall through to the next pattern, and
implicitly return None (falsy) after the loop. -/
def has_watchlist_tokens (patterns : List (List Char)) (text : List Char) :
    Bool :=
  match patterns with
  | [] => false
  | p :: rest =>
    if token_search p text then
      (if url_search text then has_watchlist_tokens rest text else true)
    else has_watchlist_tokens rest text

/-- Spec-side reading for claim C6 (a second definition following the spec's
words, to be compared with the source-derived `has_watchlist_tokens`): the
span `[i, i + n)` of `text` lies inside some match of `URL_RE`. -/
def inside_url_span (text : List Char) (i n : Nat) : Bool :=
  (List.range (i + 1)).any (fun j =>
    match url_match_len (text.drop j) with
    | some len => decide (j ≤ i) && decide (i + n ≤ j + len)
    | none => false)

/-- Spec-side reading for claim C6: the token has a (case-insensitive) match
occurrence in `text` whose span is not part of any URL in the message. -/
def token_occurs_outside_url (pat text : List Char) : Bool :=
  (List.range (text.length + 1)).any (fun i =>
    lit_at pat (text.drop i) && !(inside_url_span text i pat.length))

/-- `\w`, the word-character class of Python's `re`: ASCII letters, digits and
underscore (the configured words are ASCII). -/
def is_word_char (c : Char) : Bool :=
  (65 ≤ c.toNat && c.toNat ≤ 90) || (97 ≤ c.toNat && c.toNat ≤ 122) ||
  (48 ≤ c.toNat && c.toNat ≤ 57) || c.toNat == 95

/-- `Filtering._has_watchlist_words` (filtering.py lines 218-228): word
patterns are compiled with `\b` anchors on both sides (line 33); a pattern
matches at a position only when the neighbouring characters (if any) are not
word characters. -/
def has_watchlist_words (patterns : List (List Char)) (text : List Char) :
    Bool :=
  patterns.any (fun p =>
    (List.range (text.length + 1)).any (fun i =>
      lit_at p (text.drop i) &&
      (decide (i = 0) || !(is_word_char (text.getD (i - 1) ' '))) &&
      !(is_word_char (text.getD (i + p.length) ' '))))

/-- The characters matched by `ZALGO_RE` (filtering.py line 30): the combining
diacritical range U+0300-U+036F and U+0489. -/
def is_zalgo_char (c : Char) : Bool :=
  (0x300 ≤ c.toNat && c.toNat ≤ 0x36F) || c.toNat == 0x489

/-- Modelled from the spec: `Filtering._has_zalgo` is referenced by the filter
table (filtering.py line 50) but the file is truncated before the helper
definitions; per spec §4.2 it detects "combining diacritical marks in the
Unicode ranges reserved for combining characters", matched here with the
`ZALGO_RE` character class that is present in the file (line 30). -/
def has_zalgo (text : List Char) : Bool := text.any is_zalgo_char

/-- The fields of a message that the filtering pipeline reads. Timestamps are
in microseconds; `embeds` counts the message's embeds. -/
structure FilterMsg where
  channel_id : Nat
  author_is_member : Bool
  author_roles : List Nat
  author_bot : Bool
  content : List Char
  embeds : Nat
  created_at : Nat
  edited_at : Option Nat
deriving DecidableEq, Repr

/-- Modelled from the spec: `Filtering._has_rich_embed` is referenced by the
filter table (filtering.py line 81) but the file is truncated before the
helper definitions; per spec §4.2 the rich-embed watch "triggers whenever a
message carries at least one embed". -/
def has_rich_embed (msg : FilterMsg) : Bool := msg.embeds != 0

/-- One entry of the `self.filters` table (filtering.py lines 47-97): the
enabled flag, the `type` string, the `content_only` field as it is obtained
when the loop reads it (an `Except`, because two entries are defective — see
`filtering_filters`), the user-notification flag, and the evaluation function
(our functions take the message and read `.content` themselves where the
source's take the text). -/
structure FilterEntry where
  enabled : Bool
  ftype : String
  content_only : Except PyError Bool
  user_notification : Bool
  fn : FilterMsg → Bool

/-- The configuration the filter gating reads (`Filter.channel_whitelist`,
`Filter.role_whitelist`, `Channels.test`). -/
structure FilterConfigView where
  channel_whitelist : List Nat
  role_whitelist : List Nat
  test_channel : Nat
deriving DecidableEq, Repr

/-- The externally visible effects of a triggered filter. -/
inductive FilterEffect where
  | deletedMessage
  | notifiedUser
deriving DecidableEq, Repr

/-- The per-filter loop of `Filtering._filter_message` (filtering.py lines
142-216): for each enabled filter in declared order, skip `watch_rich_embeds`
when the edit delta is present and below 100 (lines 146-150, the
double-trigger debounce), read `content_only` (line 153), evaluate the filter,
and on a trigger: for `filter`-type entries delete the message and optionally
notify the author (lines 160-168); then call the audit log (lines 205-215) —
that call evaluates the undefined name `addtional_embeds` (line 213; the local
bound at line 184 is spelled `additional_embeds`), so it raises NameError and
no audit entry is delivered (independently, its `text=`/`thumnail=` keywords
match no parameter of `send_log_message`). Returns the effects performed, the
audit entries delivered, and the exception raised, if any. -/
def filter_loop (msg : FilterMsg) (delta : Option Nat) :
    List (String × FilterEntry) →
    List FilterEffect × List String × Option PyError
  | [] => ([], [], none)
  | (name, f) :: rest =>
    if f.enabled then
      let skipDup : Bool :=
        name == "watch_rich_embeds" &&
          (match delta with | some d => decide (d < 100) | none => false)
      if skipDup then filter_loop msg delta rest
      else
        match f.content_only with
        | Except.error e => ([], [], some e)
        | Except.ok _ =>
          if f.fn msg then
            if f.ftype == "filter" then
              ([FilterEffect.deletedMessage] ++
                 (if f.user_notification then [FilterEffect.notifiedUser]
                  else []),
               [], some PyError.nameError)
            else ([], [], some PyError.nameError)
          else filter_loop msg delta rest
    else filter_loop msg delta rest

/-- The gating prelude of `Filtering._filter_message` (filtering.py lines
121-139): `filter_message` is first set from the channel whitelist, the role
whitelist (only members have roles) and the bot-author check (lines 130-134),
and is then narrowed to the single designated test channel (lines 137-138). -/
def filter_gate (cfg : FilterConfigView) (msg : FilterMsg) : Bool :=
  let role_whitelisted :=
    msg.author_is_member &&
      msg.author_roles.any (fun r => cfg.role_whitelist.contains r)
  let filter_message :=
    !(cfg.channel_whitelist.contains msg.channel_id) &&
    !role_whitelisted && !msg.author_bot
  if filter_message then
    !msg.author_bot && (msg.channel_id == cfg.test_channel)
  else filter_message

/-- `Filtering._filter_message` (filtering.py lines 121-216): the gating
prelude followed, when the gate passes, by the per-filter loop. -/
def filter_message_run (cfg : FilterConfigView)
    (filters : List (String × FilterEntry)) (msg : FilterMsg)
    (delta : Option Nat) : List FilterEffect × List String × Option PyError :=
  if filter_gate cfg msg then filter_loop msg delta filters
  else ([], [], none)

/-- The microseconds attribute of `dateutil.relativedelta(a, b)` for
timestamps given in microseconds with `a ≥ b`: relativedelta normalises the
difference into calendar components, and its `microseconds` component is the
sub-second remainder of the difference, not the total delta. -/
def relativedelta_microseconds (a b : Nat) : Nat := (a - b) % 1000000

/-- `Filtering.on_message_edit` (filtering.py lines 109-119): compute the
delta from the previous edit (or from creation when the message was never
edited before) as the `microseconds` component of the relativedelta, then
filter the edited message with that delta. -/
def Filtering.on_message_edit (cfg : FilterConfigView)
    (filters : List (String × FilterEntry)) (before after : FilterMsg) :
    List FilterEffect × List String × Option PyError :=
  let delta :=
    match before.edited_at with
    | none => relativedelta_microseconds (after.edited_at.getD 0)
        before.created_at
    | some t => relativedelta_microseconds (after.edited_at.getD 0) t
  filter_message_run cfg filters after (some delta)

/-- The structure of the `self.filters` table of `Filtering.__init__`
(filtering.py lines 47-97), in declaration order, with the enabled and
notification flags taken from configuration. `_has_invites` and `_has_urls`
are referenced (lines 61, 71) but the file is truncated before their
definitions, so they are parameters here. The `filter_domains` entry binds its
`content_only` field to the bare name `Trie` (line 73), which is undefined
(NameError); the `watch_tokens` entry spells its key `content_ony` (line 95),
so reading `content_only` from that entry raises KeyError; both defects are
recorded in the `content_only` field as the error the loop's read produces. -/
structure FilterFlags where
  filter_zalgo : Bool
  filter_invites : Bool
  filter_domains : Bool
  watch_rich_embeds : Bool
  watch_words : Bool
  watch_tokens : Bool
  notify_user_zalgo : Bool
  notify_user_invites : Bool
  notify_user_domains : Bool
deriving DecidableEq, Repr

/-- See the doc comment on `FilterFlags`. -/
def filtering_filters (flags : FilterFlags)
    (invites_fn urls_fn : FilterMsg → Bool)
    (word_patterns token_patterns : List (List Char)) :
    List (String × FilterEntry) :=
  [("filter_zalgo",
    ⟨flags.filter_zalgo, "filter", Except.ok true, flags.notify_user_zalgo,
     fun m => has_zalgo m.content⟩),
   ("filter_invites",
    ⟨flags.filter_invites, "filter", Except.ok true, flags.notify_user_invites,
     invites_fn⟩),
   ("filter_domains",
    ⟨flags.filter_domains, "filter", Except.error PyError.nameError,
     flags.notify_user_domains, urls_fn⟩),
   ("watch_rich_embeds",
    ⟨flags.watch_rich_embeds, "watchlist", Except.ok false, false,
     has_rich_embed⟩),
   ("watch_words",
    ⟨flags.watch_words, "watchlist", Except.ok true, false,
     fun m => has_watchlist_words word_patterns m.content⟩),
   ("watch_tokens",
    ⟨flags.watch_tokens, "watchlist", Except.error PyError.keyError, false,
     fun m => has_watchlist_tokens token_patterns m.content⟩)]

/-! ## Concrete scenario inputs used by the claim theorems -/

/-- A member returned as offender by the demo rule. -/
def demoMember : SpamMember := ⟨42, "alice", 1⟩

/-- A qualifying inbound message in channel 5 at time 1000. -/
def demoSpamMsg : SpamMessage := ⟨1, 42, false, 5, 1000, "spam spam"⟩

/-- A configured rule whose evaluation function matches every message,
returning the triggering message and its author as offenders. -/
def demoRule : RuleCfg :=
  ⟨"burst", 10, fun m _ => some ⟨"sent too many messages", [demoMember], [m]⟩⟩

/-- The guild configuration for the modlog scenarios. -/
def demoGuild : GuildCfg := ⟨9, []⟩

/-- A deleted non-bot message, id 1, in channel 5 of the configured guild. -/
def demoDelMsg : CachedMessage :=
  ⟨1, 5, "general", none, 9, 42, "alice", 1, false, 0, "hello"⟩

/-- The raw delete notification for the same logical delete of message 1. -/
def demoRawDel : RawDeleteEvent := ⟨1, 5, 9⟩

/-- The channel lookup used by the raw delete handler. -/
def demoChannels : Nat → RawChannel := fun _ => ⟨"general", none⟩

/-- Scenario for C4: the cached path runs first on a fresh state. -/
def c4Cached : HandlerOut := ModLog.on_message_delete demoGuild ModLog.init demoDelMsg

/-- Scenario for C4: the raw path runs after the cached path recorded id 1. -/
def c4Raw : HandlerOut :=
  ModLog.on_raw_message_delete demoGuild demoChannels c4Cached.state demoRawDel

/-- Scenario for C4, cache-miss case: only the raw path runs. -/
def c4RawOnly : HandlerOut :=
  ModLog.on_raw_message_delete demoGuild demoChannels ModLog.init demoRawDel

/-- Scenario for C5: one `ignore` call for message-delete id 1. -/
def c5St1 : ModLogState := ModLog.ignore ModLog.init Event.message_delete [1]

/-- Scenario for C5: the first observation of the delete of id 1. -/
def c5First : HandlerOut := ModLog.on_message_delete demoGuild c5St1 demoDelMsg

/-- Scenario for C5: a second, unrelated observation of a delete of id 1. -/
def c5Second : HandlerOut :=
  ModLog.on_message_delete demoGuild c5First.state demoDelMsg

/-- Filter flags with only the rich-embed watch enabled. -/
def demoFlags : FilterFlags :=
  ⟨false, false, false, true, false, false, false, false, false⟩

/-- Filter gating configuration: test channel 5, empty whitelists. -/
def demoFilterCfg : FilterConfigView := ⟨[], [], 5⟩

/-- The filter table under `demoFlags` (the absent helper functions are
instantiated with a non-matching function; their entries are disabled). -/
def demoEditFilters : List (String × FilterEntry) :=
  filtering_filters demoFlags (fun _ => false) (fun _ => false) [] []

/-- A message in the test channel carrying one embed, created at 0 and
previously edited at 1.000000 s. -/
def demoBeforeMsg : FilterMsg := ⟨5, false, [], false, [], 1, 0, some 1000000⟩

/-- The same message re-edited exactly 2.000000 s after the previous edit. -/
def demoAfter2s : FilterMsg := ⟨5, false, [], false, [], 1, 0, some 3000000⟩

/-- The same message re-edited 0.000500 s after the previous edit. -/
def demoAfter500us : FilterMsg := ⟨5, false, [], false, [], 1, 0, some 1000500⟩

/-! ## Helper lemmas -/

/-- Appending a fresh element preserves distinctness. -/
theorem nodup_append_singleton {α : Type} [DecidableEq α] {l : List α} {a : α}
    (h : l.Nodup) (ha : a ∉ l) : (l ++ [a]).Nodup := by
  simp [List.nodup_append, h, ha]

/-- The membership test of `schedule_task`, read as key membership. -/
theorem any_key_beq_iff (l : List (String × Nat)) (k : String) :
    (l.any fun p => p.1 == k) = true ↔ k ∈ l.map Prod.fst := by
  simp [List.any_eq_true, List.mem_map]

/-- `ignore_items` preserves distinctness of the per-kind ignore list. -/
theorem ignore_items_nodup (items : List Nat) :
    ∀ l : List Nat, l.Nodup → (ignore_items l items).Nodup := by
  induction items with
  | nil => intro l h; exact h
  | cons i rest ih =>
    intro l h
    show (ignore_items (if i ∈ l then l else l ++ [i]) rest).Nodup
    apply ih
    by_cases hi : i ∈ l
    · simpa [hi]
    · rw [if_neg hi]; exact nodup_append_singleton h hi

/-- Every state reachable from `ModLog.init` by `ignore` calls has distinct
ids in every per-kind ignore list. -/
theorem apply_ignores_nodup (calls : List (Event × List Nat)) :
    ∀ st : ModLogState, (∀ e, (st.ignored e).Nodup) →
      ∀ e, ((apply_ignores st calls).ignored e).Nodup := by
  induction calls with
  | nil => intro st h e; exact h e
  | cons c rest ih =>
    intro st h e
    show ((apply_ignores (ModLog.ignore st c.1 c.2) rest).ignored e).Nodup
    apply ih
    intro e2
    show (if e2 = c.1 then ignore_items (st.ignored c.1) c.2
          else st.ignored e2).Nodup
    by_cases he : e2 = c.1
    · rw [if_pos he]; exact ignore_items_nodup c.2 _ (h c.1)
    · rw [if_neg he]; exact h e2

/-- `ignore_items` with a single item, written out. -/
theorem ignore_items_single (l : List Nat) (i : Nat) :
    ignore_items l [i] = if i ∈ l then l else l ++ [i] := rfl

/-- Registering a single id a second time leaves the list unchanged. -/
theorem ignore_items_single_idem (l : List Nat) (i : Nat) :
    ignore_items (ignore_items l [i]) [i] = ignore_items l [i] := by
  by_cases hi : i ∈ l
  · simp [ignore_items_single, hi]
  · simp [ignore_items_single, hi]

/-- If `URL_RE` matches nowhere in the text, it is anchored nowhere. -/
theorem url_match_len_drop_none (text : List Char) (h : url_search text = false) :
    ∀ j, url_match_len (text.drop j) = none := by
  induction text with
  | nil =>
    intro j; rw [List.drop_nil]; rfl
  | cons c cs ih =>
    intro j
    simp only [url_search, Bool.or_eq_false_iff] at h
    cases j with
    | zero =>
      cases hopt : url_match_len (c :: cs) with
      | none => rw [List.drop_zero]; exact hopt
      | some v => rw [hopt] at h; simp at h
    | succ n =>
      rw [List.drop_succ_cons]
      exact ih h.2 n

/-- `token_search` finds a match exactly when some in-range suffix starts with
the pattern. -/
theorem token_search_iff (pat : List Char) (text : List Char) :
    token_search pat text = true ↔
      ∃ j, j ≤ text.length ∧ lit_at pat (text.drop j) = true := by
  induction text with
  | nil =>
    simp only [token_search]
    constructor
    · intro h; exact ⟨0, Nat.le_refl 0, h⟩
    · rintro ⟨j, hj, h⟩; rwa [List.drop_nil] at h
  | cons c cs ih =>
    simp only [token_search, Bool.or_eq_true]
    constructor
    · rintro (h | h)
      · exact ⟨0, Nat.zero_le _, h⟩
      · obtain ⟨j, hj, hl⟩ := ih.mp h
        exact ⟨j + 1, Nat.succ_le_succ hj, by rwa [List.drop_succ_cons]⟩
    · rintro ⟨j, hj, hl⟩
      cases j with
      | zero => exact Or.inl hl
      | succ n =>
        exact Or.inr (ih.mpr
          ⟨n, Nat.le_of_succ_le_succ hj, by rwa [List.drop_succ_cons] at hl⟩)

/-- When `URL_RE` matches nowhere, no span lies inside a URL. -/
theorem inside_url_span_of_no_url (text : List Char) (i n : Nat)
    (h : ∀ j, url_match_len (text.drop j) = none) :
    inside_url_span text i n = false := by
  simp only [inside_url_span]
  rw [List.any_eq_false]
  intro j hj
  rw [h j]
  simp

/-- In a text without URLs, having an occurrence outside a URL is just having
an occurrence. -/
theorem token_occurs_outside_url_of_no_url (pat text : List Char)
    (hurl : url_search text = false) :
    token_occurs_outside_url pat text = token_search pat text := by
  have hnone := url_match_len_drop_none text hurl
  cases hts : token_search pat text with
  | true =>
    obtain ⟨j, hj, hl⟩ := (token_search_iff pat text).mp hts
    apply List.any_eq_true.mpr
    refine ⟨j, List.mem_range.mpr (Nat.lt_succ_of_le hj), ?_⟩
    rw [hl, inside_url_span_of_no_url text j pat.length hnone]
    rfl
  | false =>
    apply List.any_eq_false.mpr
    intro i hi
    cases hla : lit_at pat (text.drop i) with
    | false => simp [hla]
    | true =>
      exfalso
      have hcontr : token_search pat text = true :=
        (token_search_iff pat text).mpr
          ⟨i, Nat.le_of_lt_succ (List.mem_range.mp hi), hla⟩
      rw [hts] at hcontr
      exact Bool.false_ne_true hcontr

/-! ## Claim theorems -/

/-- Claim C1 (code bug in the source): when a configured rule matches a
message, the violation branch of `AntiSpam.on_message` raises AttributeError
at its very first step — the read of the misspelt attribute
`message_deletiong_queue` (antispam.py line 167) — before any context merge,
punishment scheduling or deletion, whatever the remaining rules are; so the
first matching rule produces no effect, contrary to the claim that it
produces the effects. The result does not depend on the second configured
rule, which is never evaluated. -/
theorem antispam_first_match_attribute_error (r2 : RuleCfg) :
    AntiSpam.rule_loop [demoRule, r2] demoSpamMsg [] 1000 ⟨[]⟩ =
      ⟨some PyError.attributeError, ⟨[]⟩, []⟩ := rfl

/-- Claim C2 (code bug in the source): a `DeletionContext` built by `add` from
one rule violation (one member, one message) makes `upload_messages` raise
AttributeError while rendering the member line, because `add` (antispam.py
line 51) stored the member list, not the member, under the member id; and a
context accumulating two messages across two `add` calls makes
`upload_messages` raise ValueError at the single-target unpacking
`[message] = self.messages.values()` (line 68) — so the alert with the first
accumulated message is never composed. -/
theorem deletion_context_upload_errors :
    (DeletionContext.add ⟨7, [], [], []⟩ "burst" [demoMember]
        [⟨100, 42, false, 7, 0, "hi"⟩]).upload_messages
      = Except.error PyError.attributeError ∧
    (DeletionContext.add
        (DeletionContext.add ⟨7, [], [], []⟩ "burst" []
          [⟨100, 42, false, 7, 0, "hi"⟩])
        "chars" [] [⟨101, 42, false, 7, 0, "yo"⟩]).upload_messages
      = Except.error PyError.valueError := ⟨rfl, rfl⟩

/-- Claim C3 (code bug in the source): on the first violation in a channel
with no live `DeletionContext`, the existence check itself (antispam.py line
167) raises AttributeError, so no fresh context is ever created (and hence
later violations can never merge into one): after the run the deletion queue
is still empty, no effect was performed, and the handler ended with the
exception. -/
theorem antispam_no_deletion_context_created :
    (AntiSpam.rule_loop [demoRule] demoSpamMsg [] 1000
        ⟨[]⟩).state.message_deletion_queue = [] ∧
    (AntiSpam.rule_loop [demoRule] demoSpamMsg [] 1000 ⟨[]⟩).err =
      some PyError.attributeError ∧
    (AntiSpam.rule_loop [demoRule] demoSpamMsg [] 1000 ⟨[]⟩).effects = [] :=
  ⟨rfl, rfl, rfl⟩

/-- Claim C4 (code bug in the source): for a logical delete delivered on both
paths, zero audit entries are produced, not one. The cached path records id 1
in the seen-list and then raises NameError inside `send_log_message`
(modlog.py line 59 reads `text`, which is not a parameter) without delivering
an entry; the raw path then finds the id in the seen-list, removes it and
exits without logging. In the cache-miss case the raw path alone also
delivers nothing and raises the same NameError at its degraded audit call. -/
theorem modlog_delete_race_zero_entries :
    c4Cached.state.cachedDeletes = [1] ∧
    c4Cached.sent = [] ∧
    c4Cached.err = some PyError.nameError ∧
    c4Raw.sent = [] ∧
    c4Raw.err = none ∧
    c4Raw.state.cachedDeletes = [] ∧
    c4RawOnly.sent = [] ∧
    c4RawOnly.err = some PyError.nameError :=
  ⟨rfl, rfl, rfl, rfl, rfl, rfl, rfl, rfl⟩

/-- Claim C5 (code bug in the source): after `ignore(message_delete, 1)`, the
first observation of the delete of id 1 is indeed skipped without logging and
the id is removed from the registry; but the second, unrelated observation of
id 1 is not "logged normally": it raises NameError inside `send_log_message`
and delivers no audit entry. -/
theorem modlog_ignore_second_observation_not_logged :
    c5St1.ignored Event.message_delete = [1] ∧
    c5First.sent = [] ∧
    c5First.err = none ∧
    c5First.state.ignored Event.message_delete = [] ∧
    c5Second.sent = [] ∧
    c5Second.err = some PyError.nameError :=
  ⟨rfl, rfl, rfl, rfl, rfl, rfl⟩

/-- Claim C6, counterexample: in the message text
"evil https://x.io" the token "evil" occurs outside the URL, so by the claim
the watchlist-token filter must trigger; but `_has_watchlist_tokens` returns
a falsy result, because it rejects a token match whenever `URL_RE` matches
anywhere in the whole text (filtering.py line 240). -/
theorem watchlist_token_outside_url_counterexample :
    token_occurs_outside_url "evil".toList "evil https://x.io".toList = true ∧
    has_watchlist_tokens ["evil".toList] "evil https://x.io".toList = false :=
  ⟨by decide, by decide⟩

/-- Claim C7 (code bug in the source): the rich-embed debounce compares the
`microseconds` component of the relativedelta, not the time delta, against
100. A re-edit exactly 2.000000 s after the previous edit (far above any
duplicate-notification threshold) yields component 0 < 100, so the rich-embed
filter is skipped and nothing is evaluated even though the message carries an
embed; while a re-edit 0.000500 s later (a genuine double delivery by the
comment at filtering.py lines 147-148, which speaks of 0.001 s) yields
component 500 ≥ 100 and is evaluated (reaching the defective audit call). -/
theorem rich_embed_debounce_code_bug :
    Filtering.on_message_edit demoFilterCfg demoEditFilters demoBeforeMsg
        demoAfter2s = ([], [], none) ∧
    has_rich_embed demoAfter2s = true ∧
    Filtering.on_message_edit demoFilterCfg demoEditFilters demoBeforeMsg
        demoAfter500us = ([], [], some PyError.nameError) :=
  ⟨rfl, rfl, rfl⟩

/-- Claim C6, amended: the watchlist-token filter matches a configured token
case-insensitively without boundary anchoring, but a match is discarded
whenever the message contains any URL: if `URL_RE` matches anywhere in the
text the filter never triggers (in particular a token occurring only inside a
URL does not trigger); and when the text contains no URL, the filter triggers
exactly when some configured token occurs in the text (every occurrence then
being outside a URL). -/
theorem watchlist_token_url_amended (patterns : List (List Char))
    (text : List Char) :
    (url_search text = true → has_watchlist_tokens patterns text = false) ∧
    (url_search text = false →
      (has_watchlist_tokens patterns text = true ↔
        ∃ p ∈ patterns, token_occurs_outside_url p text = true)) := by
  constructor
  · intro hurl
    induction patterns with
    | nil => rfl
    | cons p rest ih =>
      simp only [has_watchlist_tokens]
      cases hts : token_search p text <;> simp [hts, hurl, ih]
  · intro hurl
    induction patterns with
    | nil => simp [has_watchlist_tokens]
    | cons p rest ih =>
      simp only [has_watchlist_tokens]
      cases hts : token_search p text with
      | true =>
        simp only [hts, hurl, if_true, Bool.false_eq_true, if_false]
        constructor
        · intro _
          exact ⟨p, List.mem_cons_self p rest,
            by rw [token_occurs_outside_url_of_no_url p text hurl]; exact hts⟩
        · intro _; trivial
      | false =>
        simp only [hts, Bool.false_eq_true, if_false]
        rw [ih]
        constructor
        · rintro ⟨q, hq, ho⟩; exact ⟨q, List.mem_cons_of_mem _ hq, ho⟩
        · rintro ⟨q, hq, ho⟩
          rcases List.mem_cons.mp hq with h | h
          · subst h
            rw [token_occurs_outside_url_of_no_url q text hurl, hts] at ho
            exact absurd ho (by simp)
          · exact ⟨q, h, ho⟩

/-- Witness for the amended C6 theorem: in "go evil now" (no URL) the token
"evil" occurs, and the filter triggers. -/
theorem watchlist_token_url_amended_witness :
    has_watchlist_tokens ["evil".toList] "go evil now".toList = true :=
  ((watchlist_token_url_amended ["evil".toList] "go evil now".toList).2
    (by decide)).mpr ⟨"evil".toList, by decide, by decide⟩

/-- Claim C8: `schedule_task` is a no-op when a task with the given id is
already recorded; otherwise it starts exactly one task and records its handle
under the id; and when the registry holds at most one task per id before the
call, it still does afterwards. -/
theorem schedule_task_unique (st : SchedulerState) (task_id : String)
    (handle : Nat) (h : (st.scheduled_task.map Prod.fst).Nodup) :
    (task_id ∈ st.scheduled_task.map Prod.fst →
        schedule_task st task_id handle = (st, [])) ∧
    (task_id ∉ st.scheduled_task.map Prod.fst →
        schedule_task st task_id handle =
          (⟨st.scheduled_task ++ [(task_id, handle)]⟩, [handle])) ∧
    (((schedule_task st task_id handle).1.scheduled_task.map
        Prod.fst).Nodup) := by
  by_cases hm : task_id ∈ st.scheduled_task.map Prod.fst
  · have hc : (st.scheduled_task.any fun p => p.1 == task_id) = true :=
      (any_key_beq_iff st.scheduled_task task_id).mpr hm
    refine ⟨fun _ => ?_, fun hn => absurd hm hn, ?_⟩
    · simp [schedule_task, hc]
    · simp [schedule_task, hc, h]
  · have hc : ¬ ((st.scheduled_task.any fun p => p.1 == task_id) = true) :=
      fun hx => hm ((any_key_beq_iff st.scheduled_task task_id).mp hx)
    refine ⟨fun hx => absurd hx hm, fun _ => ?_, ?_⟩
    · simp [schedule_task, hc]
    · simp only [schedule_task, if_neg hc, List.map_append]
      exact nodup_append_singleton h hm

/-- Witness for C8: with "a" already recorded, scheduling "a" again changes
nothing and starts nothing; scheduling the fresh id "b" starts exactly one
task and records its handle. -/
theorem schedule_task_unique_witness :
    schedule_task ⟨[("a", 1)]⟩ "a" 2 = (⟨[("a", 1)]⟩, []) ∧
    schedule_task ⟨[("a", 1)]⟩ "b" 2 = (⟨[("a", 1), ("b", 2)]⟩, [2]) :=
  ⟨(schedule_task_unique ⟨[("a", 1)]⟩ "a" 2 (by decide)).1 (by decide),
   (schedule_task_unique ⟨[("a", 1)]⟩ "b" 2 (by decide)).2.1 (by decide)⟩

/-- Claim C9: for every message whose channel is not the designated test
channel, `_filter_message` performs no filter evaluation at all — no
deletion, no user notification, no audit entry and no exception — whatever
the filter table, the whitelists, the edit delta and the message content. -/
theorem filter_only_test_channel (cfg : FilterConfigView)
    (filters : List (String × FilterEntry)) (msg : FilterMsg)
    (delta : Option Nat) (h : msg.channel_id ≠ cfg.test_channel) :
    filter_message_run cfg filters msg delta = ([], [], none) := by
  have hb : (msg.channel_id == cfg.test_channel) = false :=
    beq_eq_false_iff_ne.mpr h
  have hg : filter_gate cfg msg = false := by
    simp only [filter_gate, hb, Bool.and_false]
    split
    · rfl
    · next hc => simpa using hc
  simp [filter_message_run, hg]

/-- Witness for C9: a message in channel 6 with the test channel being 5 is
not filtered. -/
theorem filter_only_test_channel_witness :
    filter_message_run ⟨[], [], 5⟩ [] ⟨6, false, [], false, [], 1, 0, none⟩
      none = ([], [], none) :=
  filter_only_test_channel _ _ _ _ (by decide)

/-- Claim C10: starting from the initial modlog state, any sequence of
`ignore` calls leaves every id at most once in every per-kind ignore list;
moreover registering the same id under the same kind twice in a row leaves
the registry exactly as after registering it once. -/
theorem ignore_registry_single_entry (calls : List (Event × List Nat))
    (e : Event) (i : Nat) (st : ModLogState) (e2 : Event) :
    ((apply_ignores ModLog.init calls).ignored e).count i ≤ 1 ∧
    (ModLog.ignore (ModLog.ignore st e [i]) e [i]).ignored e2 =
      (ModLog.ignore st e [i]).ignored e2 := by
  constructor
  · exact List.nodup_iff_count_le_one.mp
      (apply_ignores_nodup calls ModLog.init (fun _ => List.nodup_nil) e) i
  · show (if e2 = e then
        ignore_items ((ModLog.ignore st e [i]).ignored e) [i]
      else (ModLog.ignore st e [i]).ignored e2) =
      (ModLog.ignore st e [i]).ignored e2
    by_cases he : e2 = e
    · rw [if_pos he, he]
      show ignore_items (if e = e then ignore_items (st.ignored e) [i]
          else st.ignored e) [i] = _
      rw [if_pos rfl]
      show _ = (if e = e then ignore_items (st.ignored e) [i]
          else st.ignored e)
      rw [if_pos rfl]
      exact ignore_items_single_idem (st.ignored e) i
    · rw [if_neg he]
